import Mathlib

/-!
Verification of the InitiateAuth and AdminSetUserMFAPreference targets of a
local Cognito emulator, as a shallow embedding of the TypeScript sources
src/targets/initiateAuth.ts and src/targets/adminSetUserMFAPreference.ts.

Injected services (token generator, trigger runtime, group membership) are
modelled as components of an explicit environment; the user-pool store is an
explicit state threaded through each handler.  JavaScript `undefined` is
modelled with Option, thrown errors with Except.
-/

namespace Cognito

/-- An attribute `{Name, Value}` as carried on a user record. -/
structure AttributeType where
  Name : String
  Value : String
deriving Repr, DecidableEq

/-- An MFA option `{DeliveryMedium, AttributeName}`; only its presence matters
to the MFA gate (`(user.MFAOptions ?? []).length > 0`). -/
structure MFAOption where
  DeliveryMedium : Option String
  AttributeName : Option String
deriving Repr, DecidableEq

/-- A user record, with the fields read or written by the two targets. -/
structure User where
  Username : String
  Password : String
  UserStatus : String
  Enabled : Bool
  Attributes : List AttributeType
  MFAOptions : Option (List MFAOption)
  UserMFASettingList : Option (List String)
  MFACode : Option String
  RefreshTokens : List String
deriving Repr, DecidableEq

/-- Pool options consulted by the password flow (`userPool.options`). -/
structure UserPoolOptions where
  Id : String
  MfaConfiguration : Option String
deriving Repr, DecidableEq

/-- The mutable state of one user pool: its options and its user table. -/
structure PoolState where
  options : UserPoolOptions
  users : List User
deriving Repr, DecidableEq

/-- The token triple returned by `tokenGenerator.generate`. -/
structure Tokens where
  AccessToken : Option String
  IdToken : Option String
  RefreshToken : Option String
  ExpiresIn : Option Nat
  TokenType : Option String
deriving Repr, DecidableEq

/-- The `AuthParameters` map of an InitiateAuth request, restricted to the
keys the handler reads. -/
structure AuthParameters where
  USERNAME : Option String
  PASSWORD : Option String
  REFRESH_TOKEN : Option String
deriving Repr, DecidableEq

/-- An InitiateAuth request. -/
structure InitiateAuthRequest where
  ClientId : String
  AuthFlow : String
  AuthParameters : Option AuthParameters
  ClientMetadata : Option (List (String × String))
deriving Repr, DecidableEq

/-- An InitiateAuth response; absent fields are `none`. -/
structure InitiateAuthResponse where
  ChallengeName : Option String
  ChallengeParameters : Option (List (String × String))
  Session : Option String
  AuthenticationResult : Option Tokens
deriving Repr, DecidableEq

/-- The internal error taxonomy raised by the two targets (src/errors; the
last constructor stands for the wire-level InternalErrorException that a
failing trigger surfaces, spec §7). -/
inductive CognitoError where
  | InvalidParameterError (msg : String)
  | InvalidPasswordError
  | NotAuthorizedError
  | PasswordResetRequiredError
  | UnsupportedError (msg : String)
  | UserNotConfirmedException
  | UserNotFoundError
  | InternalErrorException (msg : String)
deriving Repr, DecidableEq

/-- Decidable equality for `Except`, for concrete evaluation of results. -/
instance exceptDecEq {ε α : Type} [DecidableEq ε] [DecidableEq α] :
    DecidableEq (Except ε α)
  | .ok a, .ok b =>
    if h : a = b then .isTrue (by rw [h]) else .isFalse (by simp [h])
  | .ok _, .error _ => .isFalse (by simp)
  | .error _, .ok _ => .isFalse (by simp)
  | .error e, .error f =>
    if h : e = f then .isTrue (by rw [h]) else .isFalse (by simp [h])

/-- Outcome of one handler invocation: the response or thrown error, the
final pool state, and how many times the `PostAuthentication` trigger ran. -/
structure FlowResult (ρ : Type) where
  resp : Except CognitoError ρ
  pool : PoolState
  postAuthCalls : Nat
deriving Repr, DecidableEq

/-- Modelled from the spec: `getUserByUsername` of the user-pool service
(§4.2, not under src/), which returns the user stored under the username or
null.  Inlined here as a scan of the pool's user table. -/
def findUser (pool : PoolState) (name : String) : Option User :=
  pool.users.find? (fun u => u.Username == name)

/-- `getUserByUsername` as called with a possibly-absent username
(`req.AuthParameters.USERNAME` may be undefined): an absent key matches no
stored user. -/
def getUserByUsername (pool : PoolState) (name : Option String) : Option User :=
  match name with
  | none => none
  | some n => findUser pool n

/-- Modelled from the spec: the pool's refresh-token reverse index (§3
invariants, §4.2 `getUserByRefreshToken`, not under src/): a token resolves
to the user whose `RefreshTokens` contains it. -/
def getUserByRefreshToken (pool : PoolState) (token : String) : Option User :=
  pool.users.find? (fun u => u.RefreshTokens.contains token)

/-- Upsert into the user table keyed by `Username`. -/
def saveUsers : List User → User → List User
  | [], u => [u]
  | x :: xs, u => if x.Username = u.Username then u :: xs else x :: saveUsers xs u

/-- Modelled from the spec: `saveUser` of the user-pool service (§4.2, not
under src/), an upsert by `Username` (timestamp bookkeeping elided). -/
def saveUser (pool : PoolState) (u : User) : PoolState :=
  { pool with users := saveUsers pool.users u }

/-- Modelled from the spec: `storeRefreshToken(token, user)` (§4.2, not under
src/) appends the token to the user's refresh-token set and persists the
user.  The handler passes `tokens.RefreshToken`, which is an Option; an
absent token appends nothing. -/
def storeRefreshToken (pool : PoolState) (token : Option String) (user : User) : PoolState :=
  saveUser pool { user with RefreshTokens := user.RefreshTokens ++ token.toList }

/-- The injected services of `InitiateAuth`, as an explicit environment:
`appClientFound` is whether `cognito.getAppClient` resolves the ClientId;
`tokenGen` is `tokenGenerator.generate` (user, groups, clientMetadata,
source — the app-client argument, constant per call, is elided);
`userGroups` is `listUserGroupMembership`; the trigger runtime contributes
whether each hook is bound and its outcome when invoked; `uuid` is the fresh
`v4()` session id. -/
structure Env where
  appClientFound : Bool
  tokenGen : User → List String → Option (List (String × String)) → String → Tokens
  userGroups : User → List String
  userMigrationEnabled : Bool
  userMigration : Option User
  postAuthEnabled : Bool
  postAuth : Except CognitoError Unit
  uuid : String

/-- `verifyMfaChallenge`: reject an empty or absent `UserMFASettingList`,
reject one without SOFTWARE_TOKEN_MFA, otherwise persist `MFACode = "999999"`
and return the SOFTWARE_TOKEN_MFA challenge. -/
def verifyMfaChallenge (env : Env) (user : User) (pool : PoolState) :
    FlowResult InitiateAuthResponse :=
  let settings := user.UserMFASettingList.getD []
  if settings.length = 0 then
    ⟨.error .NotAuthorizedError, pool, 0⟩
  else if !(settings.contains "SOFTWARE_TOKEN_MFA") then
    ⟨.error (.UnsupportedError "MFA challenge without SOFTWARE_TOKEN"), pool, 0⟩
  else
    ⟨.ok { ChallengeName := some "SOFTWARE_TOKEN_MFA",
           ChallengeParameters := some [("USER_ID_FOR_SRP", user.Username)],
           Session := some env.uuid,
           AuthenticationResult := none },
     saveUser pool { user with MFACode := some "999999" }, 0⟩

/-- `verifyPasswordChallenge`: generate tokens with source
`"Authentication"` (clientMetadata argument `undefined`), store the returned
refresh token, and answer with the tokens — and, as the source literally
does, with `ChallengeName "PASSWORD_VERIFIER"` and empty
`ChallengeParameters` alongside them. -/
def verifyPasswordChallenge (env : Env) (user : User) (pool : PoolState) :
    FlowResult InitiateAuthResponse :=
  let tokens := env.tokenGen user (env.userGroups user) none "Authentication"
  ⟨.ok { ChallengeName := some "PASSWORD_VERIFIER",
         ChallengeParameters := some [],
         Session := none,
         AuthenticationResult := some tokens },
   storeRefreshToken pool tokens.RefreshToken user, 0⟩

/-- `attributesToRecord`: the user's attribute list as a name/value record. -/
def attributesToRecord (attrs : List AttributeType) : List (String × String) :=
  attrs.map (fun a => (a.Name, a.Value))

/-- `JSON.stringify` of a flat string record (quote escaping elided; the
challenge parameters only carry it opaquely). -/
def jsonStringifyRecord (r : List (String × String)) : String :=
  "\x7b" ++ String.intercalate ","
    (r.map (fun p => "\"" ++ p.1 ++ "\":\"" ++ p.2 ++ "\"")) ++ "\x7d"

/-- `newPasswordChallenge`: the NEW_PASSWORD_REQUIRED challenge for a
FORCE_CHANGE_PASSWORD user. -/
def newPasswordChallenge (env : Env) (user : User) : InitiateAuthResponse :=
  { ChallengeName := some "NEW_PASSWORD_REQUIRED",
    ChallengeParameters := some
      [("USER_ID_FOR_SRP", user.Username),
       ("requiredAttributes", "[]"),
       ("userAttributes", jsonStringifyRecord (attributesToRecord user.Attributes))],
    Session := some env.uuid,
    AuthenticationResult := none }

/-- `userPasswordAuthFlow`: the USER_PASSWORD_AUTH branch of InitiateAuth. -/
def userPasswordAuthFlow (env : Env) (req : InitiateAuthRequest) (pool : PoolState) :
    FlowResult InitiateAuthResponse :=
  match req.AuthParameters with
  | none => ⟨.error (.InvalidParameterError "Missing required parameter authParameters"), pool, 0⟩
  | some ap =>
    let user0 := getUserByUsername pool ap.USERNAME
    let user1 := if user0.isNone && env.userMigrationEnabled then env.userMigration else user0
    match user1 with
    | none => ⟨.error .NotAuthorizedError, pool, 0⟩
    | some user =>
      if user.UserStatus = "RESET_REQUIRED" then
        ⟨.error .PasswordResetRequiredError, pool, 0⟩
      else if user.UserStatus = "FORCE_CHANGE_PASSWORD" then
        ⟨.ok (newPasswordChallenge env user), pool, 0⟩
      else if some user.Password ≠ ap.PASSWORD then
        ⟨.error .InvalidPasswordError, pool, 0⟩
      else if user.UserStatus = "UNCONFIRMED" then
        ⟨.error .UserNotConfirmedException, pool, 0⟩
      else if (pool.options.MfaConfiguration = some "OPTIONAL" ∧
                0 < (user.MFAOptions.getD []).length) ∨
              pool.options.MfaConfiguration = some "ON" then
        verifyMfaChallenge env user pool
      else if env.postAuthEnabled then
        match env.postAuth with
        | .error e => ⟨.error e, pool, 1⟩
        | .ok _ =>
          let r := verifyPasswordChallenge env user pool
          ⟨r.resp, r.pool, r.postAuthCalls + 1⟩
      else
        verifyPasswordChallenge env user pool

/-- `refreshTokenAuthFlow`: the REFRESH_TOKEN / REFRESH_TOKEN_AUTH branch.
The check `!req.AuthParameters.REFRESH_TOKEN` also rejects the empty
string (JavaScript falsiness). -/
def refreshTokenAuthFlow (env : Env) (req : InitiateAuthRequest) (pool : PoolState) :
    FlowResult InitiateAuthResponse :=
  match req.AuthParameters with
  | none => ⟨.error (.InvalidParameterError "Missing required parameter authParameters"), pool, 0⟩
  | some ap =>
    match ap.REFRESH_TOKEN with
    | none => ⟨.error (.InvalidParameterError "AuthParameters REFRESH_TOKEN is required"), pool, 0⟩
    | some rt =>
      if rt = "" then
        ⟨.error (.InvalidParameterError "AuthParameters REFRESH_TOKEN is required"), pool, 0⟩
      else
        match getUserByRefreshToken pool rt with
        | none => ⟨.error .NotAuthorizedError, pool, 0⟩
        | some user =>
          let tokens := env.tokenGen user (env.userGroups user) req.ClientMetadata "RefreshTokens"
          ⟨.ok { ChallengeName := none,
                 ChallengeParameters := none,
                 Session := some env.uuid,
                 AuthenticationResult := some tokens }, pool, 0⟩

/-- The `InitiateAuth` target: resolve the app client, then dispatch on
`AuthFlow`; every flow outside the three handled ones is Unsupported. -/
def InitiateAuth (env : Env) (req : InitiateAuthRequest) (pool : PoolState) :
    FlowResult InitiateAuthResponse :=
  if !env.appClientFound then
    ⟨.error .NotAuthorizedError, pool, 0⟩
  else if req.AuthFlow = "USER_PASSWORD_AUTH" then
    userPasswordAuthFlow env req pool
  else if req.AuthFlow = "REFRESH_TOKEN" ∨ req.AuthFlow = "REFRESH_TOKEN_AUTH" then
    refreshTokenAuthFlow env req pool
  else
    ⟨.error (.UnsupportedError ("InitAuth with AuthFlow=" ++ req.AuthFlow)), pool, 0⟩

/-- `{Enabled, PreferredMfa}` in an AdminSetUserMFAPreference request. -/
structure MFASettings where
  Enabled : Option Bool
  PreferredMfa : Option Bool
deriving Repr, DecidableEq

/-- An AdminSetUserMFAPreference request. -/
structure AdminSetUserMFAPreferenceRequest where
  UserPoolId : String
  Username : String
  ClientId : Option String
  ClientMetadata : Option (List (String × String))
  SMSMfaSettings : Option MFASettings
  SoftwareTokenMfaSettings : Option MFASettings
deriving Repr, DecidableEq

/-- Environment of `AdminSetUserMFAPreference`: the trigger runtime and the
pool service's `setUserMFAPreference`.  Modelled from the spec: the update
`setUserMFAPreference` applies to the user (§4.2, not under src/) is kept
abstract, as a function of the user and the two settings, and is persisted
via `saveUser`. -/
structure AdminEnv where
  applyMFAPreference : User → Option MFASettings → Option MFASettings → User
  postAuthEnabled : Bool
  postAuth : Except CognitoError Unit

/-- The `AdminSetUserMFAPreference` target: a missing user is an
InvalidParameter error; otherwise the preference is applied and persisted,
and then — as the source does — the PostAuthentication trigger is invoked
if it is bound. -/
def AdminSetUserMFAPreference (env : AdminEnv) (req : AdminSetUserMFAPreferenceRequest)
    (pool : PoolState) : FlowResult Unit :=
  match findUser pool req.Username with
  | none => ⟨.error (.InvalidParameterError "User does not exist"), pool, 0⟩
  | some user =>
    let pool2 := saveUser pool
      (env.applyMFAPreference user req.SMSMfaSettings req.SoftwareTokenMfaSettings)
    if env.postAuthEnabled then
      match env.postAuth with
      | .error e => ⟨.error e, pool2, 1⟩
      | .ok _ => ⟨.ok (), pool2, 1⟩
    else
      ⟨.ok (), pool2, 0⟩

/-- Modelled from the spec: the token generator (§4.4, not under src/).  It
issues an access token, an id token and `TokenType "Bearer"` for every
`"Authentication"` or `"RefreshTokens"` event; on a `"RefreshTokens"` event
the refresh token is not rotated — it is omitted from the result (§4.1 "the
refresh token itself is returned unchanged (no rotation)", S5 "RefreshToken
omitted or equal to the input").  Deterministic stub: token payloads are
placeholders. -/
def specGenerate (user : User) (_groups : List String)
    (_clientMetadata : Option (List (String × String))) (source : String) : Tokens :=
  { AccessToken := some ("access-" ++ user.Username),
    IdToken := some ("id-" ++ user.Username),
    RefreshToken := if source = "RefreshTokens" then none
                    else some ("refresh-" ++ user.Username),
    ExpiresIn := some 86400,
    TokenType := some "Bearer" }

/-- Test fixture: the S1 scenario user. -/
def alice : User :=
  { Username := "alice", Password := "p@ss", UserStatus := "CONFIRMED",
    Enabled := true, Attributes := [{ Name := "sub", Value := "uuid-sub-1" }],
    MFAOptions := none, UserMFASettingList := none, MFACode := none,
    RefreshTokens := [] }

/-- Test fixture: the S1 scenario pool, MFA off. -/
def pool0 : PoolState :=
  { options := { Id := "us-east-1_S1", MfaConfiguration := some "OFF" },
    users := [alice] }

/-- Test fixture: environment with the spec-modelled token generator, no
triggers bound. -/
def env0 : Env :=
  { appClientFound := true, tokenGen := specGenerate,
    userGroups := fun _ => [], userMigrationEnabled := false,
    userMigration := none, postAuthEnabled := false,
    postAuth := .ok (), uuid := "session-uuid-1" }

/-- Test fixture: the S1 auth parameters. -/
def apS1 : AuthParameters :=
  { USERNAME := some "alice", PASSWORD := some "p@ss", REFRESH_TOKEN := none }

/-- Test fixture: the S1 password-login request. -/
def reqS1 : InitiateAuthRequest :=
  { ClientId := "c1", AuthFlow := "USER_PASSWORD_AUTH",
    AuthParameters := some apS1, ClientMetadata := none }

/-- Test fixture: an UNCONFIRMED user. -/
def carol : User :=
  { Username := "carol", Password := "right", UserStatus := "UNCONFIRMED",
    Enabled := true, Attributes := [], MFAOptions := none,
    UserMFASettingList := none, MFACode := none, RefreshTokens := [] }

/-- Test fixture: a pool holding only carol. -/
def poolC : PoolState :=
  { options := { Id := "us-east-1_S1", MfaConfiguration := some "OFF" },
    users := [carol] }

/-- Test fixture: login attempt for carol with the wrong password. -/
def apC : AuthParameters :=
  { USERNAME := some "carol", PASSWORD := some "wrong", REFRESH_TOKEN := none }

/-- Test fixture: the request carrying apC. -/
def reqC : InitiateAuthRequest :=
  { ClientId := "c1", AuthFlow := "USER_PASSWORD_AUTH",
    AuthParameters := some apC, ClientMetadata := none }

/-- Test fixture: a CONFIRMED user enrolled in software-token MFA. -/
def bob : User :=
  { Username := "bob", Password := "p@ss", UserStatus := "CONFIRMED",
    Enabled := true, Attributes := [], MFAOptions := none,
    UserMFASettingList := some ["SOFTWARE_TOKEN_MFA"], MFACode := none,
    RefreshTokens := [] }

/-- Test fixture: a pool with MFA configured ON, holding bob. -/
def poolMfaOn : PoolState :=
  { options := { Id := "us-east-1_S2", MfaConfiguration := some "ON" },
    users := [bob] }

/-- Test fixture: bob's auth parameters. -/
def apBob : AuthParameters :=
  { USERNAME := some "bob", PASSWORD := some "p@ss", REFRESH_TOKEN := none }

/-- Test fixture: the S2 password-login request for bob. -/
def reqBob : InitiateAuthRequest :=
  { ClientId := "c1", AuthFlow := "USER_PASSWORD_AUTH",
    AuthParameters := some apBob, ClientMetadata := none }

/-- Test fixture: a user holding a live refresh token. -/
def dave : User :=
  { Username := "dave", Password := "p@ss", UserStatus := "CONFIRMED",
    Enabled := true, Attributes := [], MFAOptions := none,
    UserMFASettingList := none, MFACode := none, RefreshTokens := ["rt-dave-1"] }

/-- Test fixture: a pool holding dave. -/
def poolR : PoolState :=
  { options := { Id := "us-east-1_S1", MfaConfiguration := some "OFF" },
    users := [dave] }

/-- Test fixture: refresh auth parameters carrying dave's token. -/
def apR : AuthParameters :=
  { USERNAME := none, PASSWORD := none, REFRESH_TOKEN := some "rt-dave-1" }

/-- Test fixture: the S5 refresh request. -/
def reqR : InitiateAuthRequest :=
  { ClientId := "c1", AuthFlow := "REFRESH_TOKEN_AUTH",
    AuthParameters := some apR, ClientMetadata := none }

/-- Test fixture: a request with an unlisted auth flow. -/
def reqCustom : InitiateAuthRequest :=
  { ClientId := "c1", AuthFlow := "CUSTOM_AUTH", AuthParameters := none,
    ClientMetadata := none }

/-- Test fixture: the successful password-login response for alice. -/
def respS1 : InitiateAuthResponse :=
  { ChallengeName := some "PASSWORD_VERIFIER", ChallengeParameters := some [],
    Session := none,
    AuthenticationResult := some (specGenerate alice [] none "Authentication") }

/-- Test fixture: auth parameters with the USERNAME key absent. -/
def apNoU : AuthParameters :=
  { USERNAME := none, PASSWORD := some "p@ss", REFRESH_TOKEN := none }

/-- Test fixture: USER_PASSWORD_AUTH request missing USERNAME. -/
def reqNoU : InitiateAuthRequest :=
  { ClientId := "c1", AuthFlow := "USER_PASSWORD_AUTH",
    AuthParameters := some apNoU, ClientMetadata := none }

/-- Test fixture: environment whose bound PostAuthentication trigger fails. -/
def envPAFail : Env :=
  { env0 with postAuthEnabled := true,
              postAuth := .error (.InternalErrorException "PostAuthentication failed") }

/-- Test fixture: admin environment with the PostAuthentication trigger
bound and succeeding; the MFA-preference update is kept as the identity. -/
def adminEnv0 : AdminEnv :=
  { applyMFAPreference := fun u _ _ => u, postAuthEnabled := true,
    postAuth := .ok () }

/-- Test fixture: an AdminSetUserMFAPreference request for alice. -/
def adminReq0 : AdminSetUserMFAPreferenceRequest :=
  { UserPoolId := "us-east-1_S1", Username := "alice", ClientId := none,
    ClientMetadata := none,
    SMSMfaSettings := none,
    SoftwareTokenMfaSettings := some { Enabled := some true, PreferredMfa := some true } }

/-- Test fixture: an AdminSetUserMFAPreference request for an unknown user. -/
def adminReqUnknown : AdminSetUserMFAPreferenceRequest :=
  { UserPoolId := "us-east-1_S1", Username := "mallory", ClientId := none,
    ClientMetadata := none, SMSMfaSettings := none, SoftwareTokenMfaSettings := none }

/-- Upserting preserves lookups: a user found under a key is replaced by the
saved user when the saved user carries the same username. -/
theorem find_saveUsers (l : List User) (n : String) (u v : User)
    (hf : l.find? (fun x => x.Username == n) = some u)
    (hv : v.Username = u.Username) :
    (saveUsers l v).find? (fun x => x.Username == n) = some v := by
  induction l with
  | nil => simp at hf
  | cons x xs ih =>
    by_cases hx : x.Username = n
    · have hx2 : (x.Username == n) = true := by simp [hx]
      rw [List.find?_cons, hx2] at hf
      have hux : u = x := by
        have := hf
        simp at this
        exact this.symm
      have hxv : x.Username = v.Username := by rw [hv, hux]
      have hvn : (v.Username == n) = true := by simp [hv, hux, hx]
      simp only [saveUsers, if_pos hxv]
      rw [List.find?_cons, hvn]
    · have hx2 : (x.Username == n) = false := by simp [hx]
      rw [List.find?_cons, hx2] at hf
      have hu : u.Username = n := by simpa using List.find?_some hf
      have hxv : ¬ x.Username = v.Username := by rw [hv, hu]; exact hx
      simp only [saveUsers, if_neg hxv]
      rw [List.find?_cons, hx2]
      exact ih hf

/-- A found user satisfies the search predicate. -/
theorem findUser_username (pool : PoolState) (n : String) (u : User)
    (h : findUser pool n = some u) : u.Username = n := by
  have := List.find?_some h
  simpa using this

/-- With the app client resolved, a USER_PASSWORD_AUTH request is handled by
the password flow. -/
theorem initiateAuth_dispatch_password
    (env : Env) (req : InitiateAuthRequest) (pool : PoolState)
    (hclient : env.appClientFound = true)
    (hflow : req.AuthFlow = "USER_PASSWORD_AUTH") :
    InitiateAuth env req pool = userPasswordAuthFlow env req pool := by
  simp [InitiateAuth, hclient, hflow]

/-- With the app client resolved, a REFRESH_TOKEN or REFRESH_TOKEN_AUTH
request is handled by the refresh flow. -/
theorem initiateAuth_dispatch_refresh
    (env : Env) (req : InitiateAuthRequest) (pool : PoolState)
    (hclient : env.appClientFound = true)
    (hflow : req.AuthFlow = "REFRESH_TOKEN" ∨ req.AuthFlow = "REFRESH_TOKEN_AUTH") :
    InitiateAuth env req pool = refreshTokenAuthFlow env req pool := by
  rcases hflow with h | h <;> simp [InitiateAuth, hclient, h]

/-- When the user is found, its status passes the three status checks, the
password matches and the MFA gate does not apply, the password flow reduces
to the PostAuthentication step followed by `verifyPasswordChallenge`. -/
theorem userPasswordAuthFlow_past_checks
    (env : Env) (req : InitiateAuthRequest) (pool : PoolState)
    (ap : AuthParameters) (user : User)
    (hap : req.AuthParameters = some ap)
    (huser : getUserByUsername pool ap.USERNAME = some user)
    (h1 : user.UserStatus ≠ "RESET_REQUIRED")
    (h2 : user.UserStatus ≠ "FORCE_CHANGE_PASSWORD")
    (hpw : ap.PASSWORD = some user.Password)
    (h3 : user.UserStatus ≠ "UNCONFIRMED")
    (hmfa : ¬ ((pool.options.MfaConfiguration = some "OPTIONAL" ∧
                0 < (user.MFAOptions.getD []).length) ∨
               pool.options.MfaConfiguration = some "ON")) :
    userPasswordAuthFlow env req pool =
      if env.postAuthEnabled then
        match env.postAuth with
        | .error e => ⟨.error e, pool, 1⟩
        | .ok _ =>
          let r := verifyPasswordChallenge env user pool
          ⟨r.resp, r.pool, r.postAuthCalls + 1⟩
      else verifyPasswordChallenge env user pool := by
  simp only [userPasswordAuthFlow, hap, huser, Option.isNone_some, Bool.false_and, hpw]
  simp [h3]
  rw [if_neg h1, if_neg h2, if_neg hmfa]

/-- When the user is found, its status passes the three status checks, the
password matches and the MFA gate applies, the password flow reduces to the
MFA sub-flow. -/
theorem userPasswordAuthFlow_mfa_gate
    (env : Env) (req : InitiateAuthRequest) (pool : PoolState)
    (ap : AuthParameters) (user : User)
    (hap : req.AuthParameters = some ap)
    (huser : getUserByUsername pool ap.USERNAME = some user)
    (h1 : user.UserStatus ≠ "RESET_REQUIRED")
    (h2 : user.UserStatus ≠ "FORCE_CHANGE_PASSWORD")
    (hpw : ap.PASSWORD = some user.Password)
    (h3 : user.UserStatus ≠ "UNCONFIRMED")
    (hmfa : (pool.options.MfaConfiguration = some "OPTIONAL" ∧
                0 < (user.MFAOptions.getD []).length) ∨
               pool.options.MfaConfiguration = some "ON") :
    userPasswordAuthFlow env req pool = verifyMfaChallenge env user pool := by
  simp only [userPasswordAuthFlow, hap, huser, Option.isNone_some, Bool.false_and, hpw]
  simp [h3]
  rw [if_neg h1, if_neg h2, if_pos hmfa]

/-- The response of `verifyPasswordChallenge`, explicitly. -/
theorem verifyPasswordChallenge_resp (env : Env) (user : User) (pool : PoolState) :
    (verifyPasswordChallenge env user pool).resp = Except.ok
      { ChallengeName := some "PASSWORD_VERIFIER", ChallengeParameters := some [],
        Session := none,
        AuthenticationResult :=
          some (env.tokenGen user (env.userGroups user) none "Authentication") } := rfl

/-- Any successful MFA sub-flow response is a pending challenge: a challenge
name, challenge parameters and a session, and no tokens. -/
theorem verifyMfaChallenge_ok_shape (env : Env) (user : User) (pool : PoolState)
    (r : InitiateAuthResponse)
    (h : (verifyMfaChallenge env user pool).resp = Except.ok r) :
    r.AuthenticationResult = none ∧ r.ChallengeName.isSome = true ∧
      r.ChallengeParameters.isSome = true ∧ r.Session.isSome = true := by
  unfold verifyMfaChallenge at h
  simp only [] at h
  split at h
  · simp at h
  · split at h
    · simp at h
    · simp only [FlowResult.resp] at h
      have hr := h
      simp at hr
      subst hr
      simp

/-- Any successful password-flow response either carries tokens alongside
the PASSWORD_VERIFIER challenge name, or is a pending challenge without
tokens. -/
theorem userPasswordAuthFlow_ok_shape (env : Env) (req : InitiateAuthRequest)
    (pool : PoolState) (r : InitiateAuthResponse)
    (h : (userPasswordAuthFlow env req pool).resp = Except.ok r) :
    (r.AuthenticationResult.isSome = true ∧
      r.ChallengeName = some "PASSWORD_VERIFIER" ∧ r.ChallengeParameters = some [])
    ∨ (r.AuthenticationResult = none ∧ r.ChallengeName.isSome = true ∧
       r.ChallengeParameters.isSome = true ∧ r.Session.isSome = true) := by
  unfold userPasswordAuthFlow at h
  simp only [] at h
  split at h
  · simp at h
  · split at h
    · simp at h
    · split at h
      · simp at h
      · split at h
        · simp only [FlowResult.resp] at h
          have hr := h
          simp at hr
          subst hr
          right
          simp [newPasswordChallenge]
        · split at h
          · simp at h
          · split at h
            · simp at h
            · split at h
              · right
                exact verifyMfaChallenge_ok_shape env _ pool r h
              · split at h
                · split at h
                  · simp at h
                  · simp only [FlowResult.resp] at h
                    rw [verifyPasswordChallenge_resp] at h
                    have hr := h
                    simp at hr
                    subst hr
                    left
                    simp
                · rw [verifyPasswordChallenge_resp] at h
                  have hr := h
                  simp at hr
                  subst hr
                  left
                  simp

/-- Claim C1: a USER_PASSWORD_AUTH request for a CONFIRMED, enabled user with
the matching password and no applicable MFA gate issues tokens through the
token generator with reason "Authentication", persists the returned refresh
token to the user's RefreshTokens via storeRefreshToken, and returns an
AuthenticationResult containing those tokens.  (The Enabled hypothesis is
part of the claim; the handler never consults it.) -/
theorem c1_password_login_issues_and_persists
    (env : Env) (req : InitiateAuthRequest) (pool : PoolState)
    (ap : AuthParameters) (user : User) (rt : String)
    (hflow : req.AuthFlow = "USER_PASSWORD_AUTH")
    (hclient : env.appClientFound = true)
    (hap : req.AuthParameters = some ap)
    (huser : getUserByUsername pool ap.USERNAME = some user)
    (hstatus : user.UserStatus = "CONFIRMED")
    (_henabled : user.Enabled = true)
    (hpw : ap.PASSWORD = some user.Password)
    (hmfa : ¬ ((pool.options.MfaConfiguration = some "OPTIONAL" ∧
                0 < (user.MFAOptions.getD []).length) ∨
               pool.options.MfaConfiguration = some "ON"))
    (hpa : env.postAuthEnabled = true → env.postAuth = Except.ok ())
    (hrt : (env.tokenGen user (env.userGroups user) none "Authentication").RefreshToken
             = some rt) :
    (InitiateAuth env req pool).resp = Except.ok
      { ChallengeName := some "PASSWORD_VERIFIER", ChallengeParameters := some [],
        Session := none,
        AuthenticationResult :=
          some (env.tokenGen user (env.userGroups user) none "Authentication") }
    ∧ (InitiateAuth env req pool).pool = storeRefreshToken pool (some rt) user
    ∧ getUserByUsername (InitiateAuth env req pool).pool (some user.Username) =
        some { user with RefreshTokens := user.RefreshTokens ++ [rt] } := by
  obtain ⟨n, hn, hfind⟩ : ∃ n, ap.USERNAME = some n ∧ findUser pool n = some user := by
    cases h : ap.USERNAME with
    | none =>
      rw [h] at huser
      simp only [getUserByUsername] at huser
      exact Option.noConfusion huser
    | some n =>
      refine ⟨n, rfl, ?_⟩
      simpa only [getUserByUsername, h] using huser
  have hun : user.Username = n := findUser_username pool n user hfind
  have hIA := initiateAuth_dispatch_password env req pool hclient hflow
  have hUP := userPasswordAuthFlow_past_checks env req pool ap user hap huser
    (by rw [hstatus]; decide) (by rw [hstatus]; decide) hpw (by rw [hstatus]; decide) hmfa
  have hstore : storeRefreshToken pool
      ((env.tokenGen user (env.userGroups user) none "Authentication").RefreshToken) user =
      storeRefreshToken pool (some rt) user := by rw [hrt]
  have hlook : getUserByUsername (storeRefreshToken pool (some rt) user) (some user.Username) =
      some { user with RefreshTokens := user.RefreshTokens ++ [rt] } := by
    have hf : pool.users.find? (fun x => x.Username == user.Username) = some user := by
      rw [hun]; exact hfind
    simpa [getUserByUsername, findUser, storeRefreshToken, saveUser] using
      find_saveUsers pool.users user.Username user
        { user with RefreshTokens := user.RefreshTokens ++ [rt] } hf rfl
  cases henv : env.postAuthEnabled with
  | false =>
    rw [henv] at hUP
    simp only [Bool.false_eq_true, if_false] at hUP
    rw [hIA, hUP]
    refine ⟨rfl, ?_, ?_⟩
    · simp only [verifyPasswordChallenge]
      exact hstore
    · simp only [verifyPasswordChallenge]
      rw [hstore]
      exact hlook
  | true =>
    rw [henv] at hUP
    simp only [if_true] at hUP
    rw [hpa henv] at hUP
    rw [hIA, hUP]
    refine ⟨rfl, ?_, ?_⟩
    · simp only [verifyPasswordChallenge]
      exact hstore
    · simp only [verifyPasswordChallenge]
      rw [hstore]
      exact hlook

/-- Claim C1, witness: alice's S1 login at the concrete fixtures. -/
theorem c1_witness :
    (InitiateAuth env0 reqS1 pool0).resp = Except.ok
      { ChallengeName := some "PASSWORD_VERIFIER", ChallengeParameters := some [],
        Session := none,
        AuthenticationResult :=
          some (env0.tokenGen alice (env0.userGroups alice) none "Authentication") }
    ∧ (InitiateAuth env0 reqS1 pool0).pool =
        storeRefreshToken pool0 (some "refresh-alice") alice
    ∧ getUserByUsername (InitiateAuth env0 reqS1 pool0).pool (some alice.Username) =
        some { alice with RefreshTokens := alice.RefreshTokens ++ ["refresh-alice"] } :=
  c1_password_login_issues_and_persists env0 reqS1 pool0 apS1 alice "refresh-alice"
    rfl rfl rfl (by decide) rfl rfl rfl (by decide) (by decide) (by decide)

/-- Claim C2: in the USER_PASSWORD_AUTH flow the checks run in the order
RESET_REQUIRED, FORCE_CHANGE_PASSWORD, password comparison, UNCONFIRMED; in
particular an UNCONFIRMED user presenting a wrong password gets
InvalidPassword, not UserNotConfirmed. -/
theorem c2_check_order
    (env : Env) (req : InitiateAuthRequest) (pool : PoolState)
    (ap : AuthParameters) (user : User)
    (hflow : req.AuthFlow = "USER_PASSWORD_AUTH")
    (hclient : env.appClientFound = true)
    (hap : req.AuthParameters = some ap)
    (huser : getUserByUsername pool ap.USERNAME = some user) :
    ((user.UserStatus = "RESET_REQUIRED" →
        (InitiateAuth env req pool).resp = .error .PasswordResetRequiredError)
     ∧ (user.UserStatus = "FORCE_CHANGE_PASSWORD" →
        (InitiateAuth env req pool).resp = .ok (newPasswordChallenge env user))
     ∧ (user.UserStatus ≠ "RESET_REQUIRED" → user.UserStatus ≠ "FORCE_CHANGE_PASSWORD" →
        ap.PASSWORD ≠ some user.Password →
        (InitiateAuth env req pool).resp = .error .InvalidPasswordError)
     ∧ (user.UserStatus = "UNCONFIRMED" → ap.PASSWORD = some user.Password →
        (InitiateAuth env req pool).resp = .error .UserNotConfirmedException)
     ∧ (user.UserStatus = "UNCONFIRMED" → ap.PASSWORD ≠ some user.Password →
        (InitiateAuth env req pool).resp = .error .InvalidPasswordError)) := by
  rw [initiateAuth_dispatch_password env req pool hclient hflow]
  refine ⟨?_, ?_, ?_, ?_, ?_⟩
  · intro h
    simp [userPasswordAuthFlow, hap, huser, h]
  · intro h
    simp [userPasswordAuthFlow, hap, huser, h]
  · intro h1 h2 hne
    simp [userPasswordAuthFlow, hap, huser, h1, h2, Ne.symm hne]
  · intro h hpw
    simp [userPasswordAuthFlow, hap, huser, h, hpw.symm]
  · intro h hne
    simp [userPasswordAuthFlow, hap, huser, h, Ne.symm hne]

/-- Claim C2, witness: carol, UNCONFIRMED, with a wrong password at the
concrete fixtures. -/
theorem c2_witness :
    ((carol.UserStatus = "RESET_REQUIRED" →
        (InitiateAuth env0 reqC poolC).resp = .error .PasswordResetRequiredError)
     ∧ (carol.UserStatus = "FORCE_CHANGE_PASSWORD" →
        (InitiateAuth env0 reqC poolC).resp = .ok (newPasswordChallenge env0 carol))
     ∧ (carol.UserStatus ≠ "RESET_REQUIRED" → carol.UserStatus ≠ "FORCE_CHANGE_PASSWORD" →
        apC.PASSWORD ≠ some carol.Password →
        (InitiateAuth env0 reqC poolC).resp = .error .InvalidPasswordError)
     ∧ (carol.UserStatus = "UNCONFIRMED" → apC.PASSWORD = some carol.Password →
        (InitiateAuth env0 reqC poolC).resp = .error .UserNotConfirmedException)
     ∧ (carol.UserStatus = "UNCONFIRMED" → apC.PASSWORD ≠ some carol.Password →
        (InitiateAuth env0 reqC poolC).resp = .error .InvalidPasswordError)) :=
  c2_check_order env0 reqC poolC apC carol rfl rfl rfl (by decide)

/-- Claim C3: when the pool's MFA configuration is ON, or OPTIONAL with at
least one MFAOption on the user, a successful password check enters the MFA
sub-flow: an empty UserMFASettingList fails with NotAuthorized, one lacking
SOFTWARE_TOKEN_MFA fails with Unsupported, and otherwise MFACode "999999" is
persisted and a SOFTWARE_TOKEN_MFA challenge with USER_ID_FOR_SRP equal to
the username and a fresh session is returned, with no tokens issued. -/
theorem c3_mfa_gate_subflow
    (env : Env) (req : InitiateAuthRequest) (pool : PoolState)
    (ap : AuthParameters) (user : User)
    (hflow : req.AuthFlow = "USER_PASSWORD_AUTH")
    (hclient : env.appClientFound = true)
    (hap : req.AuthParameters = some ap)
    (huser : getUserByUsername pool ap.USERNAME = some user)
    (h1 : user.UserStatus ≠ "RESET_REQUIRED")
    (h2 : user.UserStatus ≠ "FORCE_CHANGE_PASSWORD")
    (hpw : ap.PASSWORD = some user.Password)
    (h3 : user.UserStatus ≠ "UNCONFIRMED")
    (hmfa : (pool.options.MfaConfiguration = some "OPTIONAL" ∧
                0 < (user.MFAOptions.getD []).length) ∨
               pool.options.MfaConfiguration = some "ON") :
    ((user.UserMFASettingList.getD [] = [] →
        InitiateAuth env req pool = ⟨.error .NotAuthorizedError, pool, 0⟩)
     ∧ (∀ l, user.UserMFASettingList = some l →
        l.contains "SOFTWARE_TOKEN_MFA" = false → l ≠ [] →
        InitiateAuth env req pool =
          ⟨.error (.UnsupportedError "MFA challenge without SOFTWARE_TOKEN"), pool, 0⟩)
     ∧ (∀ l, user.UserMFASettingList = some l →
        l.contains "SOFTWARE_TOKEN_MFA" = true →
        InitiateAuth env req pool =
          ⟨.ok { ChallengeName := some "SOFTWARE_TOKEN_MFA",
                 ChallengeParameters := some [("USER_ID_FOR_SRP", user.Username)],
                 Session := some env.uuid,
                 AuthenticationResult := none },
           saveUser pool { user with MFACode := some "999999" }, 0⟩
          ∧ getUserByUsername (InitiateAuth env req pool).pool (some user.Username) =
              some { user with MFACode := some "999999" })) := by
  rw [initiateAuth_dispatch_password env req pool hclient hflow,
      userPasswordAuthFlow_mfa_gate env req pool ap user hap huser h1 h2 hpw h3 hmfa]
  obtain ⟨n, hn, hfind⟩ : ∃ n, ap.USERNAME = some n ∧ findUser pool n = some user := by
    cases h : ap.USERNAME with
    | none =>
      rw [h] at huser
      simp only [getUserByUsername] at huser
      exact Option.noConfusion huser
    | some n =>
      refine ⟨n, rfl, ?_⟩
      simpa only [getUserByUsername, h] using huser
  have hun : user.Username = n := findUser_username pool n user hfind
  have hf : pool.users.find? (fun x => x.Username == user.Username) = some user := by
    rw [hun]; exact hfind
  refine ⟨?_, ?_, ?_⟩
  · intro h
    simp [verifyMfaChallenge, h]
  · intro l hl hcont hlne
    have hlen : l.length ≠ 0 := by simpa using hlne
    have hmem : "SOFTWARE_TOKEN_MFA" ∉ l := by simpa using hcont
    simp [verifyMfaChallenge, hl, hlen, hmem]
  · intro l hl hcont
    have hlne : l ≠ [] := by
      intro hcon
      rw [hcon] at hcont
      simp at hcont
    have hlen : l.length ≠ 0 := by simpa using hlne
    have hmain : verifyMfaChallenge env user pool =
        ⟨.ok { ChallengeName := some "SOFTWARE_TOKEN_MFA",
               ChallengeParameters := some [("USER_ID_FOR_SRP", user.Username)],
               Session := some env.uuid,
               AuthenticationResult := none },
         saveUser pool { user with MFACode := some "999999" }, 0⟩ := by
      have hmem : "SOFTWARE_TOKEN_MFA" ∈ l := by simpa using hcont
      simp [verifyMfaChallenge, hl, hlen, hmem]
    refine ⟨hmain, ?_⟩
    rw [hmain]
    simpa [getUserByUsername, findUser, saveUser] using
      find_saveUsers pool.users user.Username user
        { user with MFACode := some "999999" } hf rfl

/-- Claim C3, witness: bob's S2 login against the MFA-ON pool, instantiated
at his one-element software-token setting list. -/
theorem c3_witness :
    InitiateAuth env0 reqBob poolMfaOn =
      ⟨.ok { ChallengeName := some "SOFTWARE_TOKEN_MFA",
             ChallengeParameters := some [("USER_ID_FOR_SRP", bob.Username)],
             Session := some env0.uuid,
             AuthenticationResult := none },
       saveUser poolMfaOn { bob with MFACode := some "999999" }, 0⟩
    ∧ getUserByUsername (InitiateAuth env0 reqBob poolMfaOn).pool (some bob.Username) =
        some { bob with MFACode := some "999999" } :=
  (c3_mfa_gate_subflow env0 reqBob poolMfaOn apBob bob rfl rfl rfl (by decide)
    (by decide) (by decide) rfl (by decide) (by decide)).2.2
    ["SOFTWARE_TOKEN_MFA"] rfl (by decide)

/-- Claim C4: a REFRESH_TOKEN or REFRESH_TOKEN_AUTH request whose token
resolves to a user issues tokens with reason "RefreshTokens" and leaves the
pool state (hence the user's RefreshTokens) unchanged; a token resolving to
no user fails with NotAuthorized; and under the spec-modelled token
generator no refresh token is rotated into the result. -/
theorem c4_refresh_no_rotation
    (env : Env) (req : InitiateAuthRequest) (pool : PoolState)
    (ap : AuthParameters) (rt : String)
    (hclient : env.appClientFound = true)
    (hflow : req.AuthFlow = "REFRESH_TOKEN" ∨ req.AuthFlow = "REFRESH_TOKEN_AUTH")
    (hap : req.AuthParameters = some ap)
    (hrt : ap.REFRESH_TOKEN = some rt)
    (hne : rt ≠ "") :
    ((∀ user, getUserByRefreshToken pool rt = some user →
        InitiateAuth env req pool =
          ⟨.ok { ChallengeName := none, ChallengeParameters := none,
                 Session := some env.uuid,
                 AuthenticationResult :=
                   some (env.tokenGen user (env.userGroups user)
                          req.ClientMetadata "RefreshTokens") }, pool, 0⟩)
     ∧ (getUserByRefreshToken pool rt = none →
        InitiateAuth env req pool = ⟨.error .NotAuthorizedError, pool, 0⟩)
     ∧ (∀ u g m, (specGenerate u g m "RefreshTokens").RefreshToken = none)) := by
  rw [initiateAuth_dispatch_refresh env req pool hclient hflow]
  refine ⟨?_, ?_, ?_⟩
  · intro user huser
    simp [refreshTokenAuthFlow, hap, hrt, hne, huser]
  · intro huser
    simp [refreshTokenAuthFlow, hap, hrt, hne, huser]
  · intro u g m
    simp [specGenerate]

/-- Claim C4, witness: dave's S5 refresh at the concrete fixtures. -/
theorem c4_witness :
    InitiateAuth env0 reqR poolR =
      ⟨.ok { ChallengeName := none, ChallengeParameters := none,
             Session := some env0.uuid,
             AuthenticationResult :=
               some (env0.tokenGen dave (env0.userGroups dave)
                      reqR.ClientMetadata "RefreshTokens") }, poolR, 0⟩ :=
  (c4_refresh_no_rotation env0 reqR poolR apR "rt-dave-1" rfl (Or.inr rfl) rfl rfl
    (by decide)).1 dave (by decide)

/-- Claim C5, counterexample: contrary to the claim, USER_SRP_AUTH does not
return a PASSWORD_VERIFIER challenge and ADMIN_USER_PASSWORD_AUTH is not
handled by the password flow — both fall through to Unsupported. -/
theorem c5_counterexample_srp_and_admin_flows_unsupported :
    (InitiateAuth env0
      { ClientId := "c1", AuthFlow := "USER_SRP_AUTH",
        AuthParameters := some
          { USERNAME := some "alice", PASSWORD := some "p@ss", REFRESH_TOKEN := none },
        ClientMetadata := none } pool0).resp =
      Except.error (CognitoError.UnsupportedError "InitAuth with AuthFlow=USER_SRP_AUTH")
    ∧ (InitiateAuth env0
      { ClientId := "c1", AuthFlow := "ADMIN_USER_PASSWORD_AUTH",
        AuthParameters := some
          { USERNAME := some "alice", PASSWORD := some "p@ss", REFRESH_TOKEN := none },
        ClientMetadata := none } pool0).resp =
      Except.error (CognitoError.UnsupportedError "InitAuth with AuthFlow=ADMIN_USER_PASSWORD_AUTH") := by
  decide

/-- Claim C5, amended: InitiateAuth dispatches only USER_PASSWORD_AUTH to the
password flow and REFRESH_TOKEN / REFRESH_TOKEN_AUTH to the refresh flow;
every other flow — ADMIN_USER_PASSWORD_AUTH and USER_SRP_AUTH included —
fails with Unsupported naming the flow, leaving the pool unchanged. -/
theorem c5_amended_dispatch
    (env : Env) (req : InitiateAuthRequest) (pool : PoolState)
    (hclient : env.appClientFound = true) :
    ((req.AuthFlow = "USER_PASSWORD_AUTH" →
        InitiateAuth env req pool = userPasswordAuthFlow env req pool)
     ∧ (req.AuthFlow = "REFRESH_TOKEN" ∨ req.AuthFlow = "REFRESH_TOKEN_AUTH" →
        InitiateAuth env req pool = refreshTokenAuthFlow env req pool)
     ∧ (req.AuthFlow ≠ "USER_PASSWORD_AUTH" → req.AuthFlow ≠ "REFRESH_TOKEN" →
        req.AuthFlow ≠ "REFRESH_TOKEN_AUTH" →
        InitiateAuth env req pool =
          ⟨.error (.UnsupportedError ("InitAuth with AuthFlow=" ++ req.AuthFlow)),
           pool, 0⟩)) := by
  refine ⟨?_, ?_, ?_⟩
  · intro h
    exact initiateAuth_dispatch_password env req pool hclient h
  · intro h
    exact initiateAuth_dispatch_refresh env req pool hclient h
  · intro h1 h2 h3
    simp only [InitiateAuth, hclient, Bool.not_true, Bool.false_eq_true, if_false]
    rw [if_neg h1, if_neg (not_or.mpr ⟨h2, h3⟩)]

/-- Claim C5, witness: the CUSTOM_AUTH request at the concrete fixtures. -/
theorem c5_witness :
    InitiateAuth env0 reqCustom pool0 =
      ⟨.error (.UnsupportedError ("InitAuth with AuthFlow=" ++ reqCustom.AuthFlow)),
       pool0, 0⟩ :=
  (c5_amended_dispatch env0 reqCustom pool0 rfl).2.2 (by decide) (by decide) (by decide)

/-- Claim C6, counterexample: contrary to the claim, the successful password
login response carries a ChallengeName (PASSWORD_VERIFIER) and an
AuthenticationResult at the same time. -/
theorem c6_counterexample_password_success_carries_both :
    (InitiateAuth env0 reqS1 pool0).resp = Except.ok
      { ChallengeName := some "PASSWORD_VERIFIER", ChallengeParameters := some [],
        Session := none,
        AuthenticationResult := some (specGenerate alice [] none "Authentication") } := by
  decide

/-- Claim C6, amended: every successful InitiateAuth response either carries
an AuthenticationResult — with ChallengeName absent (refresh flow) or equal
to PASSWORD_VERIFIER with empty ChallengeParameters (password flow, which
carries both fields at once) — or is a pending challenge with a challenge
name, challenge parameters and a session and no AuthenticationResult. -/
theorem c6_amended_response_shapes
    (env : Env) (req : InitiateAuthRequest) (pool : PoolState) (r : InitiateAuthResponse)
    (h : (InitiateAuth env req pool).resp = Except.ok r) :
    (r.AuthenticationResult.isSome = true ∧
      (r.ChallengeName = none ∨
       (r.ChallengeName = some "PASSWORD_VERIFIER" ∧ r.ChallengeParameters = some [])))
    ∨ (r.AuthenticationResult = none ∧ r.ChallengeName.isSome = true ∧
       r.ChallengeParameters.isSome = true ∧ r.Session.isSome = true) := by
  unfold InitiateAuth at h
  split at h
  · simp at h
  · split at h
    · rcases userPasswordAuthFlow_ok_shape env req pool r h with ⟨ha, hc, hp⟩ | hr
      · exact Or.inl ⟨ha, Or.inr ⟨hc, hp⟩⟩
      · exact Or.inr hr
    · split at h
      · unfold refreshTokenAuthFlow at h
        split at h
        · simp at h
        · split at h
          · simp at h
          · split at h
            · simp at h
            · split at h
              · simp at h
              · simp only [FlowResult.resp] at h
                have hr := h
                simp at hr
                subst hr
                left
                simp
      · simp at h

/-- Claim C6, witness: the amended shape at alice's concrete successful
password-login response. -/
theorem c6_witness :
    (respS1.AuthenticationResult.isSome = true ∧
      (respS1.ChallengeName = none ∨
       (respS1.ChallengeName = some "PASSWORD_VERIFIER" ∧
        respS1.ChallengeParameters = some [])))
    ∨ (respS1.AuthenticationResult = none ∧ respS1.ChallengeName.isSome = true ∧
       respS1.ChallengeParameters.isSome = true ∧ respS1.Session.isSome = true) :=
  c6_amended_response_shapes env0 reqS1 pool0 respS1 (by decide)

/-- Claim C7, counterexample: contrary to the claim, a USER_PASSWORD_AUTH
request with AuthParameters present but USERNAME absent fails with
NotAuthorized, and one with PASSWORD absent fails with InvalidPassword —
neither fails with InvalidParameter. -/
theorem c7_counterexample_missing_keys_not_invalid_parameter :
    (InitiateAuth env0
      { ClientId := "c1", AuthFlow := "USER_PASSWORD_AUTH",
        AuthParameters := some
          { USERNAME := none, PASSWORD := some "p@ss", REFRESH_TOKEN := none },
        ClientMetadata := none } pool0).resp = Except.error CognitoError.NotAuthorizedError
    ∧ (InitiateAuth env0
      { ClientId := "c1", AuthFlow := "USER_PASSWORD_AUTH",
        AuthParameters := some
          { USERNAME := some "alice", PASSWORD := none, REFRESH_TOKEN := none },
        ClientMetadata := none } pool0).resp = Except.error CognitoError.InvalidPasswordError := by
  decide

/-- Claim C7, amended: only the absence of the whole AuthParameters map is
validated, failing with InvalidParameter; within a present map, a missing
USERNAME makes the user lookup fail (NotAuthorized when no migration
trigger is bound) and a missing PASSWORD fails the password comparison
(InvalidPassword). -/
theorem c7_amended_parameter_validation
    (env : Env) (req : InitiateAuthRequest) (pool : PoolState)
    (hflow : req.AuthFlow = "USER_PASSWORD_AUTH")
    (hclient : env.appClientFound = true) :
    ((req.AuthParameters = none →
        InitiateAuth env req pool =
          ⟨.error (.InvalidParameterError "Missing required parameter authParameters"),
           pool, 0⟩)
     ∧ (∀ ap, req.AuthParameters = some ap → ap.USERNAME = none →
        env.userMigrationEnabled = false →
        InitiateAuth env req pool = ⟨.error .NotAuthorizedError, pool, 0⟩)
     ∧ (∀ ap user, req.AuthParameters = some ap →
        getUserByUsername pool ap.USERNAME = some user →
        ap.PASSWORD = none →
        user.UserStatus ≠ "RESET_REQUIRED" → user.UserStatus ≠ "FORCE_CHANGE_PASSWORD" →
        InitiateAuth env req pool = ⟨.error .InvalidPasswordError, pool, 0⟩)) := by
  rw [initiateAuth_dispatch_password env req pool hclient hflow]
  refine ⟨?_, ?_, ?_⟩
  · intro h
    simp [userPasswordAuthFlow, h]
  · intro ap hap hname hmig
    simp [userPasswordAuthFlow, hap, hname, hmig, getUserByUsername]
  · intro ap user hap huser hpwd h1 h2
    simp only [userPasswordAuthFlow, hap, huser, Option.isNone_some, Bool.false_and]
    simp [h1, h2, hpwd]

/-- Claim C7, witness: the request missing USERNAME at the concrete
fixtures. -/
theorem c7_witness :
    InitiateAuth env0 reqNoU pool0 = ⟨.error .NotAuthorizedError, pool0, 0⟩ :=
  (c7_amended_parameter_validation env0 reqNoU pool0 rfl rfl).2.1 apNoU rfl rfl rfl

/-- Claim C8: in the USER_PASSWORD_AUTH flow with no MFA gate, a bound
PostAuthentication trigger that fails aborts the login with the trigger's
error: the trigger ran exactly once, no tokens are issued and the pool state
(hence the user's RefreshTokens) is unchanged. -/
theorem c8_postauth_failure_aborts_login
    (env : Env) (req : InitiateAuthRequest) (pool : PoolState)
    (ap : AuthParameters) (user : User) (e : CognitoError)
    (hflow : req.AuthFlow = "USER_PASSWORD_AUTH")
    (hclient : env.appClientFound = true)
    (hap : req.AuthParameters = some ap)
    (huser : getUserByUsername pool ap.USERNAME = some user)
    (h1 : user.UserStatus ≠ "RESET_REQUIRED")
    (h2 : user.UserStatus ≠ "FORCE_CHANGE_PASSWORD")
    (hpw : ap.PASSWORD = some user.Password)
    (h3 : user.UserStatus ≠ "UNCONFIRMED")
    (hmfa : ¬ ((pool.options.MfaConfiguration = some "OPTIONAL" ∧
                0 < (user.MFAOptions.getD []).length) ∨
               pool.options.MfaConfiguration = some "ON"))
    (hen : env.postAuthEnabled = true)
    (hfail : env.postAuth = Except.error e) :
    InitiateAuth env req pool = ⟨.error e, pool, 1⟩ := by
  rw [initiateAuth_dispatch_password env req pool hclient hflow,
      userPasswordAuthFlow_past_checks env req pool ap user hap huser h1 h2 hpw h3 hmfa,
      hen, hfail]
  simp

/-- Claim C8, witness: alice's login under a failing PostAuthentication
trigger at the concrete fixtures. -/
theorem c8_witness :
    InitiateAuth envPAFail reqS1 pool0 =
      ⟨.error (.InternalErrorException "PostAuthentication failed"), pool0, 1⟩ :=
  c8_postauth_failure_aborts_login envPAFail reqS1 pool0 apS1 alice
    (.InternalErrorException "PostAuthentication failed")
    rfl rfl rfl (by decide) (by decide) (by decide) rfl (by decide) (by decide) rfl rfl

/-- Claim C9: the claim says the PostAuthentication hook fires only after a
successful login, but AdminSetUserMFAPreference — which performs no
credential check at all — invokes it once on every successful call when the
trigger is bound: here at the concrete fixtures the call succeeds and the
trigger ran once. -/
theorem c9_admin_mfa_pref_fires_postauthentication :
    (AdminSetUserMFAPreference adminEnv0 adminReq0 pool0).postAuthCalls = 1
    ∧ (AdminSetUserMFAPreference adminEnv0 adminReq0 pool0).resp = Except.ok () := by
  decide

/-- Claim C10: an AdminSetUserMFAPreference request whose Username resolves
to no user in the pool fails with InvalidParameter "User does not exist"
(not UserNotFound), leaving the pool unchanged and never invoking the
trigger. -/
theorem c10_admin_mfa_pref_unknown_user
    (env : AdminEnv) (req : AdminSetUserMFAPreferenceRequest) (pool : PoolState)
    (h : findUser pool req.Username = none) :
    AdminSetUserMFAPreference env req pool =
      ⟨.error (.InvalidParameterError "User does not exist"), pool, 0⟩ := by
  simp [AdminSetUserMFAPreference, h]

/-- Claim C10, witness: the unknown user mallory at the concrete fixtures. -/
theorem c10_witness :
    AdminSetUserMFAPreference adminEnv0 adminReqUnknown pool0 =
      ⟨.error (.InvalidParameterError "User does not exist"), pool0, 0⟩ :=
  c10_admin_mfa_pref_unknown_user adminEnv0 adminReqUnknown pool0 (by decide)

end Cognito
